import Mathlib

/-
  Verification of the filter-and-fallback resolution pipeline of the
  GPT-Crelate-API service (src/main.py and src/checkpoint.py).

  The Python handlers are shallowly embedded: JSON values returned by the
  upstream CRM are modelled by `JVal`, Python attribute errors and type
  errors are modelled by `Except String`, and the HTTP layer is modelled
  by feeding each handler the upstream response it would have observed.
-/

namespace Crelate

/-- JSON-like values as returned by the upstream API and manipulated by the
Python handlers. `null` stands for Python None / JSON null. -/
inductive JVal where
  | null
  | bool (b : Bool)
  | num (n : Int)
  | str (s : String)
  | arr (elems : List JVal)
  | obj (fields : List (String × JVal))

/-- Python truthiness of a value. -/
def JVal.truthy : JVal → Bool
  | .null => false
  | .bool b => b
  | .num n => n != 0
  | .str s => s != ""
  | .arr es => !es.isEmpty
  | .obj fs => !fs.isEmpty

/-- Python `x or y` on values: `x` when truthy, otherwise `y`. -/
def pyOr (x y : JVal) : JVal := if x.truthy then x else y

/-- First binding of a key in an association list (Python dict lookup;
keys of a dict are unique, so first match is the match). -/
def alookup (k : String) : List (String × JVal) → Option JVal
  | [] => none
  | (k', v) :: rest => if k' = k then some v else alookup k rest

/-- Python `d.get(k)` on the fields of a dict: None when the key is absent. -/
def dget (fields : List (String × JVal)) (k : String) : JVal :=
  (alookup k fields).getD .null

/-- Python `d.get(k, dflt)`: the default is used only when the key is absent,
a key that is present with value None still yields None. -/
def dgetD (fields : List (String × JVal)) (k : String) (dflt : JVal) : JVal :=
  (alookup k fields).getD dflt

/-- Python attribute access `v.get(k)`: raises AttributeError when `v` is
not a dict. -/
def pyGetE : JVal → String → Except String JVal
  | .obj fs, k => .ok (dget fs k)
  | _, _ => .error "AttributeError: get"

/-- Python `v.get(k, dflt)` with the same AttributeError behaviour. -/
def pyGetDE : JVal → String → JVal → Except String JVal
  | .obj fs, k, dflt => .ok (dgetD fs k dflt)
  | _, _, _ => .error "AttributeError: get"

/-- Python iteration `for x in v`: lists iterate over elements, dicts over
their keys, strings over their characters; anything else raises TypeError. -/
def pyIterE : JVal → Except String (List JVal)
  | .arr es => .ok es
  | .obj fs => .ok (fs.map (fun f => .str f.1))
  | .str s => .ok (s.data.map (fun c => .str (String.mk [c])))
  | _ => .error "TypeError: object is not iterable"

/-- Python `v.values()` on a dict; raises AttributeError on anything else. -/
def pyValuesE : JVal → Except String (List JVal)
  | .obj fs => .ok (fs.map Prod.snd)
  | _ => .error "AttributeError: values"

/-- Extract the underlying string of a value before a str method is called
on it (`.lower()`, `.strip()`, ...); any non-string raises AttributeError. -/
def pyStrE : JVal → Except String String
  | .str s => .ok s
  | _ => .error "AttributeError: str method"

/-- Python `s.lower()`, character-wise (ASCII case mapping, as the Python
handlers only ever feed it names and tags). -/
def pyLower (s : String) : String := ⟨s.data.map Char.toLower⟩

/-- Python `s.strip()`: drop leading and trailing whitespace. -/
def pyStrip (s : String) : String :=
  ⟨((s.data.dropWhile Char.isWhitespace).reverse.dropWhile Char.isWhitespace).reverse⟩

/-- Tokenizer behind `pySplit`: cut at each whitespace character. -/
def splitWsAux : List Char → List Char → List String
  | [], acc => [⟨acc.reverse⟩]
  | c :: cs, acc =>
    if c.isWhitespace then ⟨acc.reverse⟩ :: splitWsAux cs []
    else splitWsAux cs (c :: acc)

/-- Python `s.split()`: split on whitespace runs, dropping empty tokens. -/
def pySplit (s : String) : List String :=
  (splitWsAux s.data []).filter (fun t => t != "")

/-- Python `s.replace(",", "")`: drop every comma. -/
def dropCommas (s : String) : String := ⟨s.data.filter (fun c => c != ',')⟩

/-- Python `" ".join(tokens)`. -/
def joinSp : List String → String
  | [] => ""
  | [t] => t
  | t :: ts => t ++ " " ++ joinSp ts

/-- Python truthiness of an optional string parameter: None and the empty
string are falsy, so a filter carrying either is treated as not supplied. -/
def optSet : Option String → Option String
  | some s => if s = "" then none else some s
  | none => none

/-- Character-list version of `String.startsWith` used to define substring
containment below. -/
def startsWithCh : List Char → List Char → Bool
  | [], _ => true
  | _ :: _, [] => false
  | n :: ns, h :: hs => n == h && startsWithCh ns hs

/-- Does `needle` occur contiguously inside the character list? -/
def hasSubCh (needle : List Char) : List Char → Bool
  | [] => startsWithCh needle []
  | h :: hs => startsWithCh needle (h :: hs) || hasSubCh needle hs

/-- Python substring test `needle in hay`. -/
def pyContains (needle hay : String) : Bool := hasSubCh needle.data hay.data

/-- main.py normalize_name: lowercase, drop commas, collapse whitespace. -/
def normalize_name (name : String) : String :=
  joinSp (pySplit (dropCommas (pyLower name)))

/-- main.py safe_get: walk the keys, a None along the way yields "", the
final value is replaced by "" when falsy; a non-dict non-None value met
while keys remain raises AttributeError. -/
def safe_get : JVal → List String → Except String JVal
  | d, [] => .ok (pyOr d (.str ""))
  | .null, _ :: _ => .ok (.str "")
  | .obj fs, k :: ks => safe_get (dget fs k) ks
  | _, _ :: _ => .error "AttributeError: get"

/-- The optional query parameters of the /contacts route (each is a
server-pushable parameter and, below, a client-side predicate). -/
structure Filters where
  full_name : Option String
  tag : Option String
  created_by : Option String
  owner : Option String
  primary_owner : Option String

/-- Short-circuiting monadic `any`, modelling both the Python generator
`any(...)` and the for-loop-with-break pattern: elements after the first
match are never evaluated, so their errors are never raised. -/
def anyME (f : JVal → Except String Bool) : List JVal → Except String Bool
  | [] => .ok false
  | x :: xs =>
    match f x with
    | .error e => .error e
    | .ok true => .ok true
    | .ok false => anyME f xs

/-- Sequencing of the successive `if ...: return False` checks inside
matches_filters: a failed or erroring check stops the evaluation. -/
def candE : Except String Bool → Except String Bool → Except String Bool
  | .error e, _ => .error e
  | .ok false, _ => .ok false
  | .ok true, b => b

/-- The full-name check of main.py matches_filters: the normalized query
must occur in the normalized contact name or in the name with its token
list reversed. -/
def checkFullName (target : Option String) (fields : List (String × JVal)) : Except String Bool :=
  match optSet target with
  | none => .ok true
  | some t =>
    match pyStrE (pyOr (dgetD fields "Name" (.str "")) (.str "")) with
    | .error e => .error e
    | .ok s =>
      let contact_name := normalize_name s
      let reversed_contact := joinSp (pySplit contact_name).reverse
      .ok (pyContains t contact_name || pyContains t reversed_contact)

/-- The created_by check of main.py matches_filters. -/
def checkCreatedBy (created_by : Option String) (fields : List (String × JVal)) : Except String Bool :=
  match optSet created_by with
  | none => .ok true
  | some cb =>
    match pyGetE (pyOr (dget fields "CreatedById") (.obj [])) "Title" with
    | .error e => .error e
    | .ok tv =>
      match pyStrE (pyOr tv (.str "")) with
      | .error e => .error e
      | .ok t => .ok (pyLower (pyStrip t) == pyLower (pyStrip cb))

/-- One owner entry of the owner check: non-dict entries are filtered out
by the `isinstance(o, dict)` guard before any attribute access. -/
def ownerEntryCheck (ow : String) (o : JVal) : Except String Bool :=
  match o with
  | .obj ofs =>
    match pyStrE (pyOr (dget ofs "Title") (.str "")) with
    | .error e => .error e
    | .ok t => .ok (pyLower (pyStrip t) == pyLower (pyStrip ow))
  | _ => .ok false

/-- The owner check of main.py matches_filters. -/
def checkOwner (owner : Option String) (fields : List (String × JVal)) : Except String Bool :=
  match optSet owner with
  | none => .ok true
  | some ow =>
    match pyIterE (pyOr (dget fields "Owners") (.arr [])) with
    | .error e => .error e
    | .ok owners => anyME (ownerEntryCheck ow) owners

/-- main.py: next((o for o in owners if o.get("IsPrimary") and
isinstance(o, dict)), None). The attribute access is evaluated before the
isinstance guard, so a non-dict entry raises. -/
def findPrimary : List JVal → Except String (Option JVal)
  | [] => .ok none
  | o :: os =>
    match pyGetE o "IsPrimary" with
    | .error e => .error e
    | .ok ip => if ip.truthy then .ok (some o) else findPrimary os

/-- The primary_owner check of main.py matches_filters. -/
def checkPrimaryOwner (primary_owner : Option String) (fields : List (String × JVal)) : Except String Bool :=
  match optSet primary_owner with
  | none => .ok true
  | some po =>
    match pyIterE (pyOr (dget fields "Owners") (.arr [])) with
    | .error e => .error e
    | .ok owners =>
      match findPrimary owners with
      | .error e => .error e
      | .ok none => .ok false
      | .ok (some o) =>
        match pyGetE o "Title" with
        | .error e => .error e
        | .ok tv =>
          match pyStrE (pyOr tv (.str "")) with
          | .error e => .error e
          | .ok t => .ok (pyLower (pyStrip t) == pyLower (pyStrip po))

/-- One tag entry of the tag check: the `isinstance(t, dict)` guard comes
first in the comprehension, so non-dict entries are skipped silently. -/
def tagEntryCheck (tg : String) (t : JVal) : Except String Bool :=
  match t with
  | .obj tfs =>
    match pyStrE (pyOr (dget tfs "Title") (.str "")) with
    | .error e => .error e
    | .ok s => .ok (pyLower (pyStrip s) == pyLower (pyStrip tg))
  | _ => .ok false

/-- One tag sub-group of the tag check: non-list groups fail the
`isinstance(tag_list, list)` guard. -/
def tagGroupCheck (tg : String) (v : JVal) : Except String Bool :=
  match v with
  | .arr ts => anyME (tagEntryCheck tg) ts
  | _ => .ok false

/-- The tag check of main.py matches_filters: scan the values of the Tags
dict (all sub-groups), stop at the first matching sub-group. -/
def checkTag (tag : Option String) (fields : List (String × JVal)) : Except String Bool :=
  match optSet tag with
  | none => .ok true
  | some tg =>
    match pyValuesE (pyOr (dget fields "Tags") (.obj [])) with
    | .error e => .error e
    | .ok vals => anyME (tagGroupCheck tg) vals

/-- main.py matches_filters (the closure defined inside
fetch_filtered_contacts), with the checks in source order: full name,
created_by, owner, primary_owner, tag. A non-dict contact never matches. -/
def matches_filters (target created_by owner primary_owner tag : Option String)
    (contact : JVal) : Except String Bool :=
  match contact with
  | .obj fields =>
    candE (checkFullName target fields)
      (candE (checkCreatedBy created_by fields)
        (candE (checkOwner owner fields)
          (candE (checkPrimaryOwner primary_owner fields)
            (checkTag tag fields))))
  | _ => .ok false

/-- target = normalize_name(full_name) if full_name else None. -/
def mkTarget (full_name : Option String) : Option String :=
  match optSet full_name with
  | some q => some (normalize_name q)
  | none => none

/-- The complete client-side predicate applied to one fetched contact. -/
def contactMatches (fs : Filters) (c : JVal) : Except String Bool :=
  matches_filters (mkTarget fs.full_name) fs.created_by fs.owner fs.primary_owner fs.tag c

/-- The flat display shape built by the projection inside
fetch_filtered_contacts (field order is the order of the Python dict
literal, which is also the evaluation order). -/
structure DisplayRecord where
  Id : JVal
  FullName : JVal
  CreatedBy : JVal
  PrimaryOwner : JVal
  Tags : List JVal
  Location : JVal
  Email_Work : JVal
  Email_Personal : JVal
  Phone_Work : JVal
  Phone_Mobile : JVal
  LastActivityDate : JVal
  LastActivityRegarding : JVal
  Description : JVal

/-- PrimaryOwner projection: next((o.get("Title") for o in
c.get("Owners", []) if o.get("IsPrimary")), ""). There is no isinstance
guard here, so a non-dict owner entry raises. -/
def projPrimary : List JVal → Except String JVal
  | [] => .ok (.str "")
  | o :: os =>
    match pyGetE o "IsPrimary" with
    | .error e => .error e
    | .ok ip => if ip.truthy then pyGetE o "Title" else projPrimary os

/-- Tags projection: flatten the titles of all dict entries of all list
sub-groups (this comprehension is fully guarded and cannot raise). -/
def projTags (vals : List JVal) : List JVal :=
  vals.foldr (fun v acc =>
    (match v with
     | .arr ts => ts.filterMap (fun t =>
         match t with
         | .obj tfs =>
           let ti := dget tfs "Title"
           if ti.truthy then some ti else none
         | _ => none)
     | _ => []) ++ acc) []

/-- The projection of one fetched contact into a DisplayRecord, in the
evaluation order of the Python dict literal. Note that the Owners access
uses `c.get("Owners", [])`: the default only covers an absent key, a key
present with value None reaches the iteration and raises TypeError. -/
def projectContact (c : JVal) : Except String DisplayRecord :=
  match c with
  | .obj fs =>
    match safe_get (dget fs "CreatedById") ["Title"] with
    | .error e => .error e
    | .ok createdV =>
     match pyIterE (dgetD fs "Owners" (.arr [])) with
     | .error e => .error e
     | .ok owners =>
      match projPrimary owners with
      | .error e => .error e
      | .ok primV =>
       match pyValuesE (pyOr (dget fs "Tags") (.obj [])) with
       | .error e => .error e
       | .ok tvals =>
        match safe_get (dget fs "Addresses_Home") ["Value"] with
        | .error e => .error e
        | .ok homeV =>
         match (if homeV.truthy then .ok homeV
                else safe_get (dget fs "Addresses_Business") ["Value"] : Except String JVal) with
         | .error e => .error e
         | .ok locV =>
          match safe_get (dget fs "EmailAddresses_Work") ["Value"] with
          | .error e => .error e
          | .ok ewV =>
           match safe_get (dget fs "EmailAddresses_Personal") ["Value"] with
           | .error e => .error e
           | .ok epV =>
            match safe_get (dget fs "PhoneNumbers_Work_Main") ["Value"] with
            | .error e => .error e
            | .ok pwV =>
             match safe_get (dget fs "PhoneNumbers_Mobile") ["Value"] with
             | .error e => .error e
             | .ok pmV =>
              match safe_get (dget fs "LastActivityRegardingId") ["Title"] with
              | .error e => .error e
              | .ok larV =>
                .ok ⟨dgetD fs "Id" (.str ""), dgetD fs "Name" (.str ""), createdV,
                  primV, projTags tvals, locV, ewV, epV, pwV, pmV,
                  dgetD fs "LastActivityDate" (.str ""), larV,
                  dgetD fs "Description" (.str "")⟩
  | _ => .error "AttributeError: get"

/-- Outcome of the underlying HTTP GET issued by fetch_crelate_data:
either the transport layer raised, or a response arrived carrying a
status, the request url, the body text and the result of parsing the
body as JSON. -/
inductive HttpResponse where
  | exn (msg : String)
  | resp (status : Nat) (url : String) (text : String) (parsed : Except String JVal)

/-- main.py fetch_crelate_data: a non-200 status and an unparsable body
are both turned into error dicts and returned normally; a transport
exception is not caught and propagates. Request construction (params,
api key) only shapes the observed response and is abstracted into the
`HttpResponse` input. -/
def fetch_crelate_data : HttpResponse → Except String JVal
  | .exn m => .error m
  | .resp status url text parsed =>
    if status != 200 then
      .ok (.obj [("requested_url", .str url), ("status_code", .num status), ("error", .str text)])
    else
      match parsed with
      | .ok j => .ok j
      | .error e => .ok (.obj [("requested_url", .str url), ("status_code", .num status),
          ("error", .str ("Failed to parse JSON: " ++ e)), ("raw_text", .str text)])

/-- The filter-and-project loop of fetch_filtered_contacts, in source
order: a record is projected only if it passes all supplied predicates,
and an exception in either step aborts the whole request. -/
def filterProject (fs : Filters) : List JVal → Except String (List DisplayRecord)
  | [] => .ok []
  | c :: cs =>
    match contactMatches fs c with
    | .error e => .error e
    | .ok false => filterProject fs cs
    | .ok true =>
      match projectContact c with
      | .error e => .error e
      | .ok d =>
        match filterProject fs cs with
        | .error e => .error e
        | .ok rest => .ok (d :: rest)

/-- main.py fetch_filtered_contacts: fetch, bail out with [] when the
result is falsy or not a dict, then filter and project the Data list. -/
def fetch_filtered_contacts (fs : Filters) (u : HttpResponse) : Except String (List DisplayRecord) :=
  match fetch_crelate_data u with
  | .error e => .error e
  | .ok (.obj rawFields) =>
    if (JVal.obj rawFields).truthy then
      match pyIterE (pyOr (dgetD rawFields "Data" (.arr [])) (.arr [])) with
      | .error e => .error e
      | .ok contacts => filterProject fs contacts
    else .ok []
  | .ok _ => .ok []

/-- One row of the local fallback spreadsheet. The pandas frame is
modelled as a list of rows whose filter columns are all present as
strings (column names map 1:1 to the query parameters). -/
structure LocalRow where
  FullName : String
  CreatedBy : String
  Owner : String
  PrimaryOwner : String
  Tags : String
  Id : String

/-- main.py safe_filter inside filter_local_contacts: case-insensitive
equality, or substring containment when `contains` is set. -/
def safe_filter (col : LocalRow → String) (val : String) (contains : Bool)
    (rows : List LocalRow) : List LocalRow :=
  rows.filter (fun r =>
    if contains then pyContains (pyLower val) (pyLower (col r))
    else pyLower (col r) == pyLower val)

/-- main.py filter_local_contacts, applying the supplied predicates in
source order: full_name, created_by, owner, primary_owner as equalities
and tag as a containment test. -/
def filter_local_contacts (store : List LocalRow)
    (full_name tag created_by owner primary_owner : Option String) : List LocalRow :=
  if store.isEmpty then []
  else
    let df := store
    let df := match optSet full_name with
      | some v => safe_filter LocalRow.FullName v false df
      | none => df
    let df := match optSet created_by with
      | some v => safe_filter LocalRow.CreatedBy v false df
      | none => df
    let df := match optSet owner with
      | some v => safe_filter LocalRow.Owner v false df
      | none => df
    let df := match optSet primary_owner with
      | some v => safe_filter LocalRow.PrimaryOwner v false df
      | none => df
    let df := match optSet tag with
      | some v => safe_filter LocalRow.Tags v true df
      | none => df
    df

/-- main.py lookup_local_contact: exact case-insensitive equality of the
trimmed query against the Full Name column; the Id of the first matching
row is returned. -/
def lookup_local_contact (store : List LocalRow) (full_name : String) : Option String :=
  if store.isEmpty then none
  else
    match store.filter (fun r => pyLower r.FullName == pyLower (pyStrip full_name)) with
    | [] => none
    | r :: _ => some r.Id

/-- Response of the /contacts route: either a records list or the error
object produced by the catch-all handler. Each returned row is tagged
with the source it came from: inl for an upstream DisplayRecord, inr for
a local spreadsheet row. -/
inductive ContactsResult where
  | records (rows : List (Sum DisplayRecord LocalRow))
  | errorObj (detail : String)

/-- main.py get_contacts route: run the upstream pipeline, answer with
its surviving records when there are any, otherwise consult the local
store with the same filters; any exception is caught and returned as an
error object. -/
def get_contacts (fs : Filters) (u : HttpResponse) (store : List LocalRow) : ContactsResult :=
  match fetch_filtered_contacts fs u with
  | .error e => .errorObj e
  | .ok filtered =>
    if filtered.isEmpty then
      .records ((filter_local_contacts store fs.full_name fs.tag fs.created_by fs.owner
        fs.primary_owner).map Sum.inr)
    else
      .records (filtered.map Sum.inl)

/-- Outcome of the HTTP POST issued by post_screen_activity. -/
inductive PostUpstream where
  | exn (msg : String)
  | resp (status : Nat) (text : String) (parsed : Except String JVal)

/-- Responses of the two activity-posting routes. -/
inductive RouteResp where
  | badRequest (msg : String)
  | notFound (msg : String)
  | postFailed (status : Nat) (text : String)
  | postSuccess (body : JVal)
  | exceptionCaught (detail : String)

/-- The fixed-shape activity payload built by post_screen_activity. -/
def build_activity_payload (contact_id notes : JVal) (now : String) : JVal :=
  .obj [("entity", .obj [
    ("ParentId", .obj [("Id", contact_id), ("EntityName", .str "Contacts")]),
    ("VerbId", .obj [("Id", .str "2d4edbf9-a7a2-4174-ae53-a8f900bb0381"), ("Title", .str "Screen")]),
    ("Subject", .str "Screen via API"),
    ("Html", notes),
    ("IsEngagement", .bool true),
    ("Completed", .bool true),
    ("When", .str now)])]

/-- main.py post_screen_activity: validate, build the payload, post it.
The second component is the payload actually sent upstream, none when no
upstream call was made. -/
def post_screen_activity (entityId notes : JVal) (now : String) (pu : PostUpstream) :
    RouteResp × Option JVal :=
  if !entityId.truthy || !notes.truthy then
    (.badRequest "Missing required EntityId or Notes", none)
  else
    let payload := build_activity_payload entityId notes now
    match pu with
    | .exn m => (.exceptionCaught m, some payload)
    | .resp status text parsed =>
      if status != 200 then (.postFailed status text, some payload)
      else
        match parsed with
        | .ok j => (.postSuccess j, some payload)
        | .error e => (.exceptionCaught e, some payload)

/-- main.py post_screen_activity_by_name: validate, resolve the contact
id through the full-name pipeline, fall back to the local lookup when
the pipeline yields nothing, 404 when the resolved id is falsy, else
delegate to post_screen_activity. -/
def post_screen_activity_by_name (fullName notes : JVal) (u : HttpResponse)
    (store : List LocalRow) (now : String) (pu : PostUpstream) : RouteResp × Option JVal :=
  if !fullName.truthy || !notes.truthy then
    (.badRequest "Missing required FullName or Notes", none)
  else
    match fullName with
    | .str s =>
      match fetch_filtered_contacts (Filters.mk (some s) none none none none) u with
      | .error e => (.exceptionCaught e, none)
      | .ok contact_list =>
        let contact_id : JVal :=
          match contact_list with
          | d :: _ => d.Id
          | [] =>
            match lookup_local_contact store s with
            | some i => .str i
            | none => .null
        if !contact_id.truthy then
          (.notFound ("No contact found with full name '" ++ s ++ "'"), none)
        else
          post_screen_activity contact_id notes now pu
    | _ => (.exceptionCaught "AttributeError: strip", none)

namespace Checkpoint

/-- checkpoint.py created_by check: note `creator.get("Title", "")` has
no `or ""`, so a Title present with value None raises at `.lower()`. -/
def checkCreatedBy (created_by : Option String) (job : JVal) : Except String Bool :=
  match optSet created_by with
  | none => .ok true
  | some cb =>
    match pyGetE job "CreatedById" with
    | .error e => .error e
    | .ok cv =>
      match pyGetDE (pyOr cv (.obj [])) "Title" (.str "") with
      | .error e => .error e
      | .ok tv =>
        match pyStrE tv with
        | .error e => .error e
        | .ok t => .ok (pyLower t == pyLower cb)

/-- One entry of the checkpoint job_type / owner checks: `jt and
jt.get("Title", "").lower() == ...`, so a falsy entry contributes False
without any attribute access. -/
def entryTitleEq (v : String) (o : JVal) : Except String Bool :=
  if !o.truthy then .ok false
  else
    match pyGetDE o "Title" (.str "") with
    | .error e => .error e
    | .ok tv =>
      match pyStrE tv with
      | .error e => .error e
      | .ok t => .ok (pyLower t == pyLower v)

/-- checkpoint.py job_type check over JobTypeIds. -/
def checkJobType (job_type : Option String) (job : JVal) : Except String Bool :=
  match optSet job_type with
  | none => .ok true
  | some jt =>
    match pyGetE job "JobTypeIds" with
    | .error e => .error e
    | .ok jv =>
      match pyIterE (pyOr jv (.arr [])) with
      | .error e => .error e
      | .ok jts => anyME (entryTitleEq jt) jts

/-- checkpoint.py owner check over Owners. -/
def checkOwner (owner : Option String) (job : JVal) : Except String Bool :=
  match optSet owner with
  | none => .ok true
  | some ow =>
    match pyGetE job "Owners" with
    | .error e => .error e
    | .ok ov =>
      match pyIterE (pyOr ov (.arr [])) with
      | .error e => .error e
      | .ok owners => anyME (entryTitleEq ow) owners

/-- checkpoint.py: next((o for o in owners if o and o.get("IsPrimary")), None);
the truthiness guard comes first, so falsy entries are skipped safely but a
truthy non-dict entry raises. -/
def findPrimaryCk : List JVal → Except String (Option JVal)
  | [] => .ok none
  | o :: os =>
    if !o.truthy then findPrimaryCk os
    else
      match pyGetE o "IsPrimary" with
      | .error e => .error e
      | .ok ip => if ip.truthy then .ok (some o) else findPrimaryCk os

/-- checkpoint.py primary_owner check. -/
def checkPrimaryOwner (primary_owner : Option String) (job : JVal) : Except String Bool :=
  match optSet primary_owner with
  | none => .ok true
  | some po =>
    match pyGetE job "Owners" with
    | .error e => .error e
    | .ok ov =>
      match pyIterE (pyOr ov (.arr [])) with
      | .error e => .error e
      | .ok owners =>
        match findPrimaryCk owners with
        | .error e => .error e
        | .ok none => .ok false
        | .ok (some o) =>
          match pyGetDE o "Title" (.str "") with
          | .error e => .error e
          | .ok tv =>
            match pyStrE tv with
            | .error e => .error e
            | .ok t => .ok (pyLower t == pyLower po)

/-- checkpoint.py matches_filters for jobs, checks in source order:
created_by, job_type, owner, primary_owner. -/
def matches_filters (created_by job_type owner primary_owner : Option String)
    (job : JVal) : Except String Bool :=
  candE (checkCreatedBy created_by job)
    (candE (checkJobType job_type job)
      (candE (checkOwner owner job)
        (checkPrimaryOwner primary_owner job)))

end Checkpoint

/-! Helper lemmas about the embedded Python primitives. -/

theorem candE_of_ok_true (b : Bool) : candE (.ok b) (.ok true) = .ok b := by
  cases b <;> rfl

theorem pyOr_str (s : String) : pyOr (.str s) (.str "") = .str s := by
  by_cases h : s = "" <;> simp [pyOr, JVal.truthy, h]

theorem pyOr_arr (es : List JVal) : pyOr (.arr es) (.arr []) = .arr es := by
  cases es <;> simp [pyOr, JVal.truthy]

theorem pyOr_obj (fs : List (String × JVal)) : pyOr (.obj fs) (.obj []) = .obj fs := by
  cases fs <;> simp [pyOr, JVal.truthy]

theorem pyContains_nil (s : String) : pyContains "" s = true := by
  cases s with
  | mk l => cases l <;> simp [pyContains, hasSubCh, startsWithCh]

theorem anyME_ok (f : JVal → Except String Bool) (g : JVal → Bool)
    (xs : List JVal) (h : ∀ x ∈ xs, f x = .ok (g x)) :
    anyME f xs = .ok (xs.any g) := by
  induction xs with
  | nil => rfl
  | cons x xs ih =>
    have hx := h x (List.mem_cons_self x xs)
    have hrest : ∀ y ∈ xs, f y = .ok (g y) := fun y hy => h y (List.mem_cons_of_mem x hy)
    simp only [anyME, hx, List.any_cons]
    cases hgx : g x
    · simpa using ih hrest
    · simp

/-- An owner entry that is a dict whose IsPrimary flag is falsy. -/
def noPrimaryEntry : JVal → Bool
  | .obj ofs => !(dget ofs "IsPrimary").truthy
  | _ => false

theorem findPrimary_none (os : List JVal) (h : os.all noPrimaryEntry = true) :
    findPrimary os = .ok none := by
  induction os with
  | nil => rfl
  | cons o os ih =>
    simp only [List.all_cons, Bool.and_eq_true] at h
    obtain ⟨h1, h2⟩ := h
    cases o <;> simp [noPrimaryEntry] at h1
    case obj ofs =>
      simp [findPrimary, pyGetE, h1, ih h2]

theorem findPrimaryCk_none (os : List JVal) (h : os.all noPrimaryEntry = true) :
    Checkpoint.findPrimaryCk os = .ok none := by
  induction os with
  | nil => rfl
  | cons o os ih =>
    simp only [List.all_cons, Bool.and_eq_true] at h
    obtain ⟨h1, h2⟩ := h
    cases o <;> simp [noPrimaryEntry] at h1
    case obj ofs =>
      rcases Bool.eq_false_or_eq_true (JVal.obj ofs).truthy with ht | ht <;>
        simp [Checkpoint.findPrimaryCk, ht, pyGetE, h1, ih h2]

/-! Claim theorems. -/

/-- C3: a full-name predicate matches an upstream contact exactly when the
normalized query (lowercased, commas stripped, whitespace collapsed) occurs
as a substring of the normalized upstream name or of that name with its
token order reversed; in particular matching is case-insensitive and
"Jane Doe" matches "Doe, Jane" and conversely. -/
theorem c3_full_name_matching (q n : String) :
    contactMatches (Filters.mk (some q) none none none none) (.obj [("Name", .str n)]) =
      .ok (pyContains (normalize_name q) (normalize_name n) ||
           pyContains (normalize_name q) (joinSp (pySplit (normalize_name n)).reverse)) ∧
    contactMatches (Filters.mk (some "Jane Doe") none none none none)
      (.obj [("Name", .str "Doe, Jane")]) = .ok true ∧
    contactMatches (Filters.mk (some "Doe, Jane") none none none none)
      (.obj [("Name", .str "Jane Doe")]) = .ok true ∧
    contactMatches (Filters.mk (some "JANE doe") none none none none)
      (.obj [("Name", .str "jane DOE")]) = .ok true := by
  refine ⟨?_, rfl, rfl, rfl⟩
  show candE (checkFullName (mkTarget (some q)) [("Name", JVal.str n)]) (Except.ok true) = _
  have hcf : checkFullName (mkTarget (some q)) [("Name", JVal.str n)] =
      .ok (pyContains (normalize_name q) (normalize_name n) ||
           pyContains (normalize_name q) (joinSp (pySplit (normalize_name n)).reverse)) := by
    by_cases hq : q = ""
    · subst hq
      simp [checkFullName, mkTarget, optSet, pyContains_nil,
        show normalize_name "" = "" from rfl]
    · by_cases hnq : normalize_name q = ""
      · simp [checkFullName, mkTarget, optSet, hq, hnq, pyContains_nil]
      · simp [checkFullName, mkTarget, optSet, hq, hnq, dgetD, alookup, pyOr_str, pyStrE]
  rw [hcf]
  exact candE_of_ok_true _

/-- C4: when no Owner entry of a record has its IsPrimary flag set, a
supplied primary-owner predicate never matches, whatever the Titles of the
other owner entries are. This holds for both the contacts matcher of
main.py and the jobs matcher of checkpoint.py. -/
theorem c4_no_primary_never_matches (po : String) (os : List JVal)
    (hpo : po ≠ "") (hwf : os.all noPrimaryEntry = true) :
    contactMatches (Filters.mk none none none none (some po))
      (.obj [("Owners", .arr os)]) = .ok false ∧
    Checkpoint.matches_filters none none none (some po)
      (.obj [("Owners", .arr os)]) = .ok false := by
  constructor
  · simp [contactMatches, mkTarget, matches_filters, checkFullName, checkCreatedBy,
      checkOwner, checkTag, candE, checkPrimaryOwner, optSet, hpo, dget, alookup,
      pyOr_arr, pyIterE, findPrimary_none os hwf]
  · simp [Checkpoint.matches_filters, Checkpoint.checkCreatedBy, Checkpoint.checkJobType,
      Checkpoint.checkOwner, Checkpoint.checkPrimaryOwner, candE, optSet, hpo,
      pyGetE, dget, alookup, pyOr_arr, pyIterE, findPrimaryCk_none os hwf]

/-- Witness for C4 at a record with two owner entries, neither primary. -/
theorem c4_no_primary_never_matches_witness :
    ("boss" ≠ "") ∧
    contactMatches (Filters.mk none none none none (some "boss"))
      (.obj [("Owners", .arr [.obj [("Title", .str "Boss"), ("IsPrimary", .bool false)],
        .obj [("Title", .str "Other")]])]) = .ok false ∧
    Checkpoint.matches_filters none none none (some "boss")
      (.obj [("Owners", .arr [.obj [("Title", .str "Boss"), ("IsPrimary", .bool false)],
        .obj [("Title", .str "Other")]])]) = .ok false := by
  refine ⟨by decide, ?_, ?_⟩
  · exact (c4_no_primary_never_matches "boss"
      [.obj [("Title", .str "Boss"), ("IsPrimary", .bool false)], .obj [("Title", .str "Other")]]
      (by decide) rfl).1
  · exact (c4_no_primary_never_matches "boss"
      [.obj [("Title", .str "Boss"), ("IsPrimary", .bool false)], .obj [("Title", .str "Other")]]
      (by decide) rfl).2

/-- C7: post_screen_activity rejects a request whose EntityId or Notes is
falsy (absent, null or empty) with the 400 validation response, and no
upstream call is made (no payload is sent). -/
theorem c7_validation_before_write (entityId notes : JVal) (now : String) (pu : PostUpstream)
    (h : entityId.truthy = false ∨ notes.truthy = false) :
    post_screen_activity entityId notes now pu =
      (.badRequest "Missing required EntityId or Notes", none) := by
  rcases h with h | h <;> simp [post_screen_activity, h]

/-- Witness for C7: EntityId present, Notes empty. -/
theorem c7_validation_before_write_witness :
    ((JVal.str "").truthy = false ∨ (JVal.str "").truthy = false) ∧
    post_screen_activity (.str "abc") (.str "") "now" (.resp 200 "ok" (.ok .null)) =
      (.badRequest "Missing required EntityId or Notes", none) :=
  ⟨Or.inl rfl, c7_validation_before_write (.str "abc") (.str "") "now"
    (.resp 200 "ok" (.ok .null)) (Or.inr rfl)⟩

/-- C8: the projection is not total. A contact whose Owners key is present
with value null passes an unfiltered matches_filters, but its projection
raises TypeError (the PrimaryOwner field iterates over
c.get("Owners", []), whose default does not cover a null value), so the
whole /contacts request collapses to the catch-all error object instead
of records. -/
theorem c8_owners_null_projection_raises :
    projectContact (.obj [("Owners", JVal.null)]) =
      .error "TypeError: object is not iterable" ∧
    contactMatches (Filters.mk none none none none none) (.obj [("Owners", JVal.null)]) =
      .ok true ∧
    get_contacts (Filters.mk none none none none none)
      (.resp 200 "url" "body" (.ok (.obj [("Data", .arr [.obj [("Owners", JVal.null)]])]))) [] =
      .errorObj "TypeError: object is not iterable" :=
  ⟨rfl, rfl, rfl⟩

/-- C9 counterexample: with both a home and a business address present,
the Location field takes the home value, not the work/business value. -/
theorem c9_location_counterexample :
    (projectContact (.obj [("Addresses_Home", .obj [("Value", .str "12 Home St")]),
        ("Addresses_Business", .obj [("Value", .str "34 Work Ave")])])).map
      DisplayRecord.Location = .ok (.str "12 Home St") := rfl

theorem safe_get_value (s : String) :
    safe_get (.obj [("Value", .str s)]) ["Value"] = .ok (.str s) := by
  simp [safe_get, dget, alookup, pyOr_str]

/-- C9 (amended): the Location of a projected contact is taken from the
home address first; the business address value is used only when the home
address is absent or empty, and a single present address is used as is. -/
theorem c9_location_home_first (hv bv : String) :
    (projectContact (.obj [("Addresses_Home", .obj [("Value", .str hv)]),
        ("Addresses_Business", .obj [("Value", .str bv)])])).map DisplayRecord.Location =
      .ok (.str (if hv = "" then bv else hv)) ∧
    (projectContact (.obj [("Addresses_Home", .obj [("Value", .str hv)])])).map
      DisplayRecord.Location = .ok (.str hv) ∧
    (projectContact (.obj [("Addresses_Business", .obj [("Value", .str bv)])])).map
      DisplayRecord.Location = .ok (.str bv) := by
  refine ⟨?_, ?_, ?_⟩
  · by_cases h0 : hv = ""
    · subst h0
      simp [projectContact, safe_get_value, safe_get, dget, dgetD, alookup, pyOr,
        JVal.truthy, pyIterE, projPrimary, pyValuesE, projTags, Except.map]
      try exact fun h => h.symm
    · simp [projectContact, safe_get_value, safe_get, dget, dgetD, alookup, pyOr,
        JVal.truthy, pyIterE, projPrimary, pyValuesE, projTags, Except.map, h0]
      try exact fun h => h.symm
  · by_cases h0 : hv = ""
    · subst h0
      simp [projectContact, safe_get_value, safe_get, dget, dgetD, alookup, pyOr,
        JVal.truthy, pyIterE, projPrimary, pyValuesE, projTags, Except.map]
      try exact fun h => h.symm
    · simp [projectContact, safe_get_value, safe_get, dget, dgetD, alookup, pyOr,
        JVal.truthy, pyIterE, projPrimary, pyValuesE, projTags, Except.map, h0]
      try exact fun h => h.symm
  · by_cases h1 : bv = ""
    · subst h1
      simp [projectContact, safe_get_value, safe_get, dget, dgetD, alookup, pyOr,
        JVal.truthy, pyIterE, projPrimary, pyValuesE, projTags, Except.map]
      try exact fun h => h.symm
    · simp [projectContact, safe_get_value, safe_get, dget, dgetD, alookup, pyOr,
        JVal.truthy, pyIterE, projPrimary, pyValuesE, projTags, Except.map, h1]
      try exact fun h => h.symm

/-- C1: once the upstream pipeline of a /contacts query completes with
surviving set l, the local store answers the response exactly when l is
empty, the upstream rows answer it exactly when l is nonempty, and every
records response draws all its rows from a single source. -/
theorem c1_fallback_iff_empty (fs : Filters) (u : HttpResponse) (store : List LocalRow)
    (l : List DisplayRecord) (h : fetch_filtered_contacts fs u = .ok l) :
    (l ≠ [] → get_contacts fs u store = .records (l.map Sum.inl)) ∧
    (l = [] → get_contacts fs u store =
      .records ((filter_local_contacts store fs.full_name fs.tag fs.created_by fs.owner
        fs.primary_owner).map Sum.inr)) ∧
    (∀ rows, get_contacts fs u store = .records rows →
      (∀ x ∈ rows, x.isLeft = true) ∨ (∀ x ∈ rows, x.isRight = true)) := by
  unfold get_contacts
  rw [h]
  refine ⟨?_, ?_, ?_⟩
  · intro hne
    cases l with
    | nil => exact absurd rfl hne
    | cons d ds => rfl
  · intro he
    subst he
    rfl
  · intro rows hrows
    cases l with
    | nil =>
      have hrows' : ((filter_local_contacts store fs.full_name fs.tag fs.created_by fs.owner
          fs.primary_owner).map Sum.inr : List (Sum DisplayRecord LocalRow)) = rows := by
        injection hrows
      right
      intro x hx
      rw [← hrows'] at hx
      rcases List.mem_map.mp hx with ⟨r, _, rfl⟩
      rfl
    | cons d ds =>
      have hrows' : ((d :: ds).map Sum.inl : List (Sum DisplayRecord LocalRow)) = rows := by
        injection hrows
      left
      intro x hx
      rw [← hrows'] at hx
      rcases List.mem_map.mp hx with ⟨r, _, rfl⟩
      rfl

/-- Witness for C1: one upstream record survives, so the response is that
record and the (nonempty) local store is not consulted. -/
theorem c1_fallback_iff_empty_witness :
    get_contacts (Filters.mk none none none none none)
      (.resp 200 "url" "body" (.ok (.obj [("Data", .arr [.obj [("Name", .str "Jane Doe")]])])))
      [⟨"Doe, Jane", "", "", "", "", "c-123"⟩] =
      .records ([(⟨.str "", .str "Jane Doe", .str "", .str "", [], .str "", .str "", .str "",
        .str "", .str "", .str "", .str "", .str ""⟩ : DisplayRecord)].map Sum.inl) :=
  (c1_fallback_iff_empty (Filters.mk none none none none none)
    (.resp 200 "url" "body" (.ok (.obj [("Data", .arr [.obj [("Name", .str "Jane Doe")]])])))
    [⟨"Doe, Jane", "", "", "", "", "c-123"⟩]
    [⟨.str "", .str "Jane Doe", .str "", .str "", [], .str "", .str "", .str "",
      .str "", .str "", .str "", .str "", .str ""⟩] rfl).1 (List.cons_ne_nil _ _)

/-- C2 counterexample: a transport error during the upstream fetch is not
reduced to an empty surviving set; it propagates to the route boundary
and /contacts answers with the catch-all error object, surfacing the
failure and consulting no local fallback. -/
theorem c2_transport_error_counterexample :
    get_contacts (Filters.mk none none none none none) (.exn "connection refused") [] =
      .errorObj "connection refused" := rfl

/-- C2 (amended): a non-success status or an unparsable 200 body yields an
empty surviving set, triggering the local fallback; a transport error,
however, propagates as an exception and is returned as an error object
with no fallback. -/
theorem c2_error_policy (fs : Filters) (store : List LocalRow)
    (status : Nat) (url text e m : String) (p : Except String JVal)
    (hs : status ≠ 200) :
    (fetch_filtered_contacts fs (.resp status url text p) = .ok [] ∧
      get_contacts fs (.resp status url text p) store =
        .records ((filter_local_contacts store fs.full_name fs.tag fs.created_by fs.owner
          fs.primary_owner).map Sum.inr)) ∧
    (fetch_filtered_contacts fs (.resp 200 url text (.error e)) = .ok [] ∧
      get_contacts fs (.resp 200 url text (.error e)) store =
        .records ((filter_local_contacts store fs.full_name fs.tag fs.created_by fs.owner
          fs.primary_owner).map Sum.inr)) ∧
    get_contacts fs (.exn m) store = .errorObj m := by
  have hb : (status != 200) = true := by simpa using hs
  have hfetch : fetch_crelate_data (.resp status url text p) =
      .ok (.obj [("requested_url", .str url), ("status_code", .num status),
        ("error", .str text)]) := by
    simp [fetch_crelate_data, hb]
  have hff : fetch_filtered_contacts fs (.resp status url text p) = .ok [] := by
    unfold fetch_filtered_contacts
    rw [hfetch]
    rfl
  have hff2 : fetch_filtered_contacts fs (.resp 200 url text (.error e)) = .ok [] := rfl
  refine ⟨⟨hff, ?_⟩, ⟨hff2, ?_⟩, rfl⟩
  · unfold get_contacts
    rw [hff]
    rfl
  · unfold get_contacts
    rw [hff2]
    rfl

/-- Witness for C2 at a 500 response: the pipeline survives as empty and
the (nonempty) local store answers the response. -/
theorem c2_error_policy_witness :
    (500 ≠ 200) ∧
    (fetch_filtered_contacts (Filters.mk none none none none none)
        (.resp 500 "url" "Internal Server Error" (.error "boom")) = .ok [] ∧
      get_contacts (Filters.mk none none none none none)
        (.resp 500 "url" "Internal Server Error" (.error "boom"))
        [⟨"Doe, Jane", "", "", "", "", "c-123"⟩] =
        .records ([(⟨"Doe, Jane", "", "", "", "", "c-123"⟩ : LocalRow)].map Sum.inr)) :=
  ⟨by decide,
    (c2_error_policy (Filters.mk none none none none none)
      [⟨"Doe, Jane", "", "", "", "", "c-123"⟩] 500 "url" "Internal Server Error" "boom" "m"
      (.error "boom") (by decide)).1⟩

/-- A tag entry on which the code evaluates without raising: either not a
dict (skipped by the isinstance guard) or a dict whose Title is a string
or falsy. -/
def tagEntrySafe : JVal → Bool
  | .obj tfs =>
    (match dget tfs "Title" with
     | .str _ => true
     | v => !v.truthy)
  | _ => true

/-- A tag sub-group on which the code evaluates without raising. -/
def tagGroupSafe : JVal → Bool
  | .arr ts => ts.all tagEntrySafe
  | _ => true

/-- Spec-side tag predicate of the amended claim for one entry: exact
trimmed case-insensitive equality of the entry Title against the query
(an absent or falsy Title counts as the empty title). -/
def tagEntryBool (tg : String) : JVal → Bool
  | .obj tfs =>
    (match dget tfs "Title" with
     | .str s => pyLower (pyStrip s) == pyLower (pyStrip tg)
     | _ => pyLower (pyStrip "") == pyLower (pyStrip tg))
  | _ => false

theorem tagEntryCheck_ok (tg : String) (t : JVal) (h : tagEntrySafe t = true) :
    tagEntryCheck tg t = .ok (tagEntryBool tg t) := by
  cases t with
  | null => rfl
  | bool b => rfl
  | num n => rfl
  | str s => rfl
  | arr es => rfl
  | obj tfs =>
    simp only [tagEntrySafe] at h
    cases hT : dget tfs "Title" with
    | str s => simp [tagEntryCheck, tagEntryBool, hT, pyOr_str, pyStrE]
    | null => simp [tagEntryCheck, tagEntryBool, hT, pyOr, JVal.truthy, pyStrE]
    | bool b =>
      rw [hT] at h
      have hb : b = false := by simpa [JVal.truthy] using h
      subst hb
      simp [tagEntryCheck, tagEntryBool, hT, pyOr, JVal.truthy, pyStrE]
    | num n =>
      rw [hT] at h
      have hn : n = 0 := by simpa [JVal.truthy] using h
      subst hn
      simp [tagEntryCheck, tagEntryBool, hT, pyOr, JVal.truthy, pyStrE]
    | arr es =>
      rw [hT] at h
      have he : es = [] := by simpa [JVal.truthy] using h
      subst he
      simp [tagEntryCheck, tagEntryBool, hT, pyOr, JVal.truthy, pyStrE]
    | obj ofs =>
      rw [hT] at h
      have he : ofs = [] := by simpa [JVal.truthy] using h
      subst he
      simp [tagEntryCheck, tagEntryBool, hT, pyOr, JVal.truthy, pyStrE]

/-- Spec-side tag predicate of the amended claim for one sub-group. -/
def tagGroupBool (tg : String) : JVal → Bool
  | .arr ts => ts.any (tagEntryBool tg)
  | _ => false

/-- Spec-side tag predicate of the amended claim: some entry of some list
sub-group matches exactly. -/
def tagMatchSpec (tg : String) (vals : List JVal) : Bool :=
  vals.any (tagGroupBool tg)

theorem tagGroupCheck_ok (tg : String) (v : JVal) (h : tagGroupSafe v = true) :
    tagGroupCheck tg v = .ok (tagGroupBool tg v) := by
  cases v <;> simp [tagGroupCheck, tagGroupBool]
  case arr ts =>
    simp only [tagGroupSafe, List.all_eq_true] at h
    exact anyME_ok _ _ ts (fun t ht => tagEntryCheck_ok tg t (h t ht))

/-- C5 counterexample: the upstream tag predicate is not a substring
match. The query "con" is a substring of the tag title "Contract", yet
the record does not match. -/
theorem c5_tag_substring_counterexample :
    contactMatches (Filters.mk none (some "con") none none none)
      (.obj [("Tags", .obj [("Group1", .arr [.obj [("Title", .str "Contract")]])])]) =
      .ok false ∧
    pyContains (pyLower "con") (pyLower "Contract") = true := ⟨rfl, rfl⟩

/-- C5 (amended): against upstream records the tag predicate is an exact
trimmed case-insensitive equality on tag titles (not a substring match),
and it is satisfied as soon as any entry in any tag sub-group of the
Tags mapping matches. -/
theorem c5_tag_exact_any_subgroup (tg : String) (groups : List (String × JVal))
    (htg : tg ≠ "") (hwf : (groups.map Prod.snd).all tagGroupSafe = true) :
    contactMatches (Filters.mk none (some tg) none none none)
      (.obj [("Tags", .obj groups)]) = .ok (tagMatchSpec tg (groups.map Prod.snd)) := by
  have hvals : anyME (tagGroupCheck tg) (groups.map Prod.snd) =
      .ok (tagMatchSpec tg (groups.map Prod.snd)) := by
    rw [tagMatchSpec]
    refine anyME_ok _ _ _ (fun v hv => ?_)
    have hsafe : tagGroupSafe v = true := by
      rw [List.all_eq_true] at hwf
      exact hwf v hv
    exact tagGroupCheck_ok tg v hsafe
  simp [contactMatches, mkTarget, matches_filters, checkFullName, checkCreatedBy, checkOwner,
    checkPrimaryOwner, checkTag, candE, optSet, htg, dget, alookup, pyOr_obj, pyValuesE, hvals]

/-- Witness for C5 at a record whose second tag sub-group holds the exact
(differently-cased, padded) tag. -/
theorem c5_tag_exact_any_subgroup_witness :
    ("contract" ≠ "") ∧
    contactMatches (Filters.mk none (some "contract") none none none)
      (.obj [("Tags", .obj [("G1", .arr []),
        ("G2", .arr [.obj [("Title", .str " CONTRACT ")]])])]) = .ok true :=
  ⟨by decide,
    c5_tag_exact_any_subgroup "contract"
      [("G1", .arr []), ("G2", .arr [.obj [("Title", .str " CONTRACT ")]])]
      (by decide) rfl⟩

/-- C6: the by-name activity route resolves the contact id by running the
full-name pipeline and taking the first surviving record; when the
pipeline survives empty it falls back to the local name lookup; when the
resolved id is still falsy it answers 404 with the exact message, and no
upstream write payload is sent. -/
theorem c6_by_name_resolution (s : String) (notes : JVal) (u : HttpResponse)
    (store : List LocalRow) (now : String) (pu : PostUpstream) (l : List DisplayRecord)
    (hs : s ≠ "") (hnotes : notes.truthy = true)
    (hfetch : fetch_filtered_contacts (Filters.mk (some s) none none none none) u = .ok l) :
    (∀ d rest, l = d :: rest →
      post_screen_activity_by_name (.str s) notes u store now pu =
        (if d.Id.truthy then post_screen_activity d.Id notes now pu
         else (.notFound ("No contact found with full name '" ++ s ++ "'"), none))) ∧
    (l = [] → lookup_local_contact store s = none →
      post_screen_activity_by_name (.str s) notes u store now pu =
        (.notFound ("No contact found with full name '" ++ s ++ "'"), none)) ∧
    (l = [] → ∀ i, lookup_local_contact store s = some i →
      post_screen_activity_by_name (.str s) notes u store now pu =
        (if i ≠ "" then post_screen_activity (.str i) notes now pu
         else (.notFound ("No contact found with full name '" ++ s ++ "'"), none))) := by
  have hstr : (JVal.str s).truthy = true := by simp [JVal.truthy, hs]
  have hnull : JVal.null.truthy = false := rfl
  have hempty : (JVal.str "").truthy = false := rfl
  refine ⟨?_, ?_, ?_⟩
  · intro d rest hl
    subst hl
    cases hid : d.Id.truthy <;>
      simp [post_screen_activity_by_name, hstr, hnotes, hfetch, hid]
  · intro hl hlook
    subst hl
    simp [post_screen_activity_by_name, hstr, hnotes, hfetch, hlook, hnull]
  · intro hl i hlook
    subst hl
    by_cases hi : i = ""
    · subst hi
      simp [post_screen_activity_by_name, hstr, hnotes, hfetch, hlook, hempty]
    · have hstri : (JVal.str i).truthy = true := by simp [JVal.truthy, hi]
      simp [post_screen_activity_by_name, hstr, hnotes, hfetch, hlook, hstri, hi]

/-- Witness for C6: name absent upstream (500 response, empty surviving
set) and absent locally (empty store) answers the exact 404 body. -/
theorem c6_by_name_resolution_witness :
    ("Jane Doe" ≠ "") ∧ (JVal.str "note").truthy = true ∧
    post_screen_activity_by_name (.str "Jane Doe") (.str "note")
      (.resp 500 "u" "err" (.error "x")) [] "now" (.resp 200 "ok" (.ok .null)) =
      (.notFound "No contact found with full name 'Jane Doe'", none) :=
  ⟨by decide, rfl,
    (c6_by_name_resolution "Jane Doe" (.str "note") (.resp 500 "u" "err" (.error "x"))
      [] "now" (.resp 200 "ok" (.ok .null)) [] (by decide) rfl rfl).2.1 rfl rfl⟩

/-- C10: the local name lookup used by the by-name route matches only by
exact case-insensitive equality of the trimmed query against the Full
Name column; in particular a contact stored locally as "Doe, Jane" is not
found by the query "Jane Doe" (no substring or reversed-token matching),
and with the upstream pipeline surviving empty the route answers 404. -/
theorem c10_local_lookup_exact (store : List LocalRow) (q : String) :
    ((lookup_local_contact store q).isSome ↔
      ∃ r ∈ store, pyLower r.FullName = pyLower (pyStrip q)) ∧
    lookup_local_contact [⟨"Doe, Jane", "", "", "", "", "c-123"⟩] "Jane Doe" = none ∧
    post_screen_activity_by_name (.str "Jane Doe") (.str "note")
      (.resp 500 "url" "Internal Server Error" (.error "boom"))
      [⟨"Doe, Jane", "", "", "", "", "c-123"⟩] "now" (.resp 200 "ok" (.ok .null)) =
      (.notFound "No contact found with full name 'Jane Doe'", none) := by
  refine ⟨?_, rfl, rfl⟩
  unfold lookup_local_contact
  cases store with
  | nil => simp
  | cons r rs =>
    simp only [List.isEmpty_cons, Bool.false_eq_true, if_false]
    cases hf : (r :: rs).filter (fun x => pyLower x.FullName == pyLower (pyStrip q)) with
    | nil =>
      rw [List.filter_eq_nil_iff] at hf
      simp only [Option.isSome_none, Bool.false_eq_true, false_iff]
      rintro ⟨x, hx, hx2⟩
      exact hf x hx (by simpa using hx2)
    | cons r0 rest =>
      have hr0 : r0 ∈ (r :: rs).filter (fun x => pyLower x.FullName == pyLower (pyStrip q)) := by
        rw [hf]
        exact List.mem_cons_self _ _
      rw [List.mem_filter] at hr0
      simp only [Option.isSome_some, true_iff]
      exact ⟨r0, hr0.1, by simpa using hr0.2⟩

end Crelate
